import Mathlib

/- Verification of the RichEffects keypad firmware core: the button-edge to
   HID-report state machine of the main source file. Four GPIO edge handlers
   classify an edge against a captured baseline level, write a scancode into
   the shared report buffer and raise a semaphore; a dispatch loop takes the
   semaphore, submits an 8-byte HID report and toggles a status LED. -/

namespace Keypad

/-- HID usage id of the R key (HID usage tables, keyboard page). -/
def HID_KEY_R : Nat := 21

/-- HID usage id of the I key. -/
def HID_KEY_I : Nat := 12

/-- HID usage id of the C key. -/
def HID_KEY_C : Nat := 6

/-- HID usage id of the H key. -/
def HID_KEY_H : Nat := 11

/-- Zephyr HID modifier value NONE (0), used by the firmware as the no-key
sentinel written into the scancode byte on release. -/
def HID_KBD_MODIFIER_NONE : Nat := 0

/-- Values of the Zephyr enum usb_dc_status_code that the firmware can
observe through status_cb; the handlers only ever compare against suspend. -/
inductive UsbDcStatusCode where
  | error
  | reset
  | connected
  | configured
  | disconnected
  | suspend
  | resume
  | sof
  | unknown
deriving DecidableEq, Repr

/-- Modelled from the spec: the Kconfig option CONFIG_USB_DEVICE_REMOTE_WAKEUP
is not part of the source tree; the spec describes the suspend guard and the
remote-wakeup request as present behaviour, so the option is modelled as
enabled. -/
def CONFIG_USB_DEVICE_REMOTE_WAKEUP : Bool := true

/-- Firmware state touched by the button interrupt handlers: status7 is the
scancode byte status[KEYPAD_BTN_CODE_REPORT_POS] of the shared report buffer,
defVal the four captured baseline levels def_val[0..3], sem the count of the
handoff semaphore K_SEM_DEFINE(sem, 0, 1), usbStatus the global usb_status.
The fields wakeRequests and writeCount are ghost observation counters that
record calls of usb_wakeup_request and per-channel writes of the scancode
byte; they do not influence any control flow. -/
structure FwState where
  status7 : Nat
  defVal : Fin 4 → Nat
  sem : Nat
  usbStatus : UsbDcStatusCode
  wakeRequests : Nat
  writeCount : Fin 4 → Nat

/-- Zephyr k_sem_give on a semaphore declared with limit 1, as by
K_SEM_DEFINE(sem, 0, 1): the count saturates at the limit. -/
def kSemGive (c : Nat) : Nat := min (c + 1) 1

/-- Fixed scancode of each button channel: one_button writes HID_KEY_R,
two_button HID_KEY_I, three_button HID_KEY_C, four_button HID_KEY_H. -/
def channelScancode (ch : Fin 4) : Nat :=
  if ch.val = 0 then HID_KEY_R
  else if ch.val = 1 then HID_KEY_I
  else if ch.val = 2 then HID_KEY_C
  else HID_KEY_H

/-- Classification step shared by the four handlers: ret is the int returned
by gpio_pin_get (non-negative on success), compared after a cast to uint8_t
against the captured baseline; a differing level maps to the fixed scancode
of the channel, an equal level to the no-key sentinel. -/
def classify (baseline : Nat) (ret : Int) (code : Nat) : Nat :=
  if baseline ≠ ret.toNat % 256 then code else HID_KBD_MODIFIER_NONE

/-- Suspend branch of a handler: usb_wakeup_request is issued and the handler
returns without touching any other state. -/
def wakePath (s : FwState) : FwState :=
  { s with wakeRequests := s.wakeRequests + 1 }

/-- Body of a handler after the suspend guard: a failed gpio_pin_get is
logged and the handler returns unchanged; otherwise the classified scancode
(the local variable named state in the source) is compared against the
current shared scancode byte and, when they differ, written there while the
semaphore is given. -/
def edgeBody (ch : Fin 4) (ret : Int) (s : FwState) : FwState :=
  if ret < 0 then s
  else if s.status7 ≠ classify (s.defVal ch) ret (channelScancode ch) then
    { s with status7 := classify (s.defVal ch) ret (channelScancode ch),
             sem := kSemGive s.sem,
             writeCount := Function.update s.writeCount ch (s.writeCount ch + 1) }
  else s

/-- Common shape of the four edge interrupt handlers one_button, two_button,
three_button and four_button, which differ only in the baseline index and
fixed scancode: when remote wakeup is enabled and the link is suspended, a
wake request is issued and nothing else happens; otherwise the edge body
runs. -/
def buttonHandler (ch : Fin 4) (ret : Int) (s : FwState) : FwState :=
  if CONFIG_USB_DEVICE_REMOTE_WAKEUP = true ∧ s.usbStatus = .suspend then wakePath s
  else edgeBody ch ret s

/-- Handler one_button of the source, channel 0. -/
def one_button (ret : Int) (s : FwState) : FwState := buttonHandler 0 ret s

/-- Handler two_button of the source, channel 1. -/
def two_button (ret : Int) (s : FwState) : FwState := buttonHandler 1 ret s

/-- Handler three_button of the source, channel 2. -/
def three_button (ret : Int) (s : FwState) : FwState := buttonHandler 2 ret s

/-- Handler four_button of the source, channel 3. -/
def four_button (ret : Int) (s : FwState) : FwState := buttonHandler 3 ret s

/-- USB status callback status_cb: stores the reported status in the global
usb_status. -/
def status_cb (st : UsbDcStatusCode) (s : FwState) : FwState :=
  { s with usbStatus := st }

/-- System events acting on the shared firmware state: a button edge running
one of the handlers, a drain k_sem_take by the dispatch loop (which only runs
when the count is positive, and lowers it by one), and a link status update
delivered to status_cb. -/
inductive SysEvent where
  | edge (ch : Fin 4) (ret : Int)
  | drain
  | linkStatus (u : UsbDcStatusCode)

/-- One system step. -/
def sysStep (s : FwState) (e : SysEvent) : FwState :=
  match e with
  | .edge ch ret => buttonHandler ch ret s
  | .drain => { s with sem := s.sem - 1 }
  | .linkStatus u => status_cb u s

/-- Fold a list of button edges (channel, gpio_pin_get result) over the
state. -/
def edgeFold (edges : List (Fin 4 × Int)) (s : FwState) : FwState :=
  edges.foldl (fun t e => buttonHandler e.1 e.2 t) s

/-- State of the report dispatch loop in main: the local report buffer
report[8], a ghost count of successful LED toggles, a ghost count of toggle
attempts, and the list of reports handed to hid_int_ep_write, in order. -/
structure DispState where
  report : Fin 8 → Nat
  ledToggles : Nat
  toggleAttempts : Nat
  submitted : List (Fin 8 → Nat)

/-- Loop-local state at entry of main: report[8] = { 0x00 }. -/
def dispInit : DispState :=
  { report := fun _ => 0, ledToggles := 0, toggleAttempts := 0, submitted := [] }

/-- One iteration of the dispatch loop after k_sem_take returns: the scancode
read from the shared buffer is stored at byte offset 7 of the report, the
report is submitted (writeRet is the hid_int_ep_write result, only logged on
failure), and gpio_pin_toggle is then called unconditionally (toggleRet is
its result; the LED state changes exactly when the call succeeds). -/
def loopIter (scan : Nat) (writeRet toggleRet : Int) (s : DispState) : DispState :=
  let rep := Function.update s.report (7 : Fin 8) scan
  { report := rep
    ledToggles := if toggleRet < 0 then s.ledToggles else s.ledToggles + 1
    toggleAttempts := s.toggleAttempts + 1
    submitted := s.submitted ++ [rep] }

/-- Run the dispatch loop over a list of iteration inputs (scancode read from
the shared buffer, write result, toggle result). -/
def runLoop (inputs : List (Nat × Int × Int)) (s : DispState) : DispState :=
  inputs.foldl (fun t p => loopIter p.1 p.2.1 p.2.2 t) s

/-- Results of the external GPIO collaborator calls made by
callbacks_configure, one oracle per call site. -/
structure GpioEnv where
  deviceReady : Bool
  configureRet : Int
  readRet : Int
  addCallbackRet : Int
  intConfigRet : Int
deriving DecidableEq, Repr

/-- Observable effects of callbacks_configure: whether the pin was configured
as input, the baseline written through val (if any), whether the callback was
added, and whether the edge interrupt was configured. -/
structure CfgEffects where
  pinConfigured : Bool
  baselineWritten : Option Nat
  callbackAdded : Bool
  interruptConfigured : Bool
deriving DecidableEq, Repr

/-- No effect performed. -/
def noCfgEffects : CfgEffects :=
  { pinConfigured := false, baselineWritten := none,
    callbackAdded := false, interruptConfigured := false }

/-- The errno value ENODEV. -/
def ENODEV : Int := 19

/-- Function callbacks_configure of the source: portPresent is whether the
gpio_dt_spec has a non-NULL port (the devicetree node exists); a missing
optional GPIO returns 0 at once with nothing done; otherwise readiness, input
configuration, the baseline read, callback registration and interrupt
configuration run in order, each failure returning its error code with the
effects made so far. -/
def callbacks_configure (portPresent : Bool) (env : GpioEnv) : Int × CfgEffects :=
  if ¬ portPresent then (0, noCfgEffects)
  else if ¬ env.deviceReady then (-ENODEV, noCfgEffects)
  else if env.configureRet < 0 then (env.configureRet, noCfgEffects)
  else if env.readRet < 0 then
    (env.readRet, { noCfgEffects with pinConfigured := true })
  else if env.addCallbackRet < 0 then
    (env.addCallbackRet,
     { pinConfigured := true, baselineWritten := some (env.readRet.toNat % 256),
       callbackAdded := false, interruptConfigured := false })
  else if env.intConfigRet < 0 then
    (env.intConfigRet,
     { pinConfigured := true, baselineWritten := some (env.readRet.toNat % 256),
       callbackAdded := true, interruptConfigured := false })
  else
    (0, { pinConfigured := true, baselineWritten := some (env.readRet.toNat % 256),
          callbackAdded := true, interruptConfigured := true })

/-- The abort guard main applies to each callbacks_configure result: a
nonzero return aborts startup. -/
def mainAbortsOnChannel (portPresent : Bool) (env : GpioEnv) : Bool :=
  (callbacks_configure portPresent env).1 ≠ 0

/-- Example baseline assignment for concrete runs: every channel idles
high. -/
def exDefVal : Fin 4 → Nat := fun _ => 1

/-- Example state with the link active (configured), empty report byte and
semaphore at zero. -/
def exActive : FwState :=
  { status7 := 0, defVal := exDefVal, sem := 0, usbStatus := .configured,
    wakeRequests := 0, writeCount := fun _ => 0 }

/-- Example state with the link suspended. -/
def exSuspended : FwState :=
  { exActive with usbStatus := .suspend }

/-- Concrete run for the per-channel record question: start at rest. -/
def cexS0 : FwState := exActive

/-- Channel 0 sees a pressed edge (level 0 against baseline 1). -/
def cexS1 : FwState := buttonHandler 0 0 cexS0

/-- The dispatch loop drains the semaphore. -/
def cexS2 : FwState := sysStep cexS1 .drain

/-- Channel 1 sees its first edge ever, at its baseline level 1. -/
def cexS3 : FwState := buttonHandler 1 1 cexS2

/- Helper lemmas about the handlers, shared across the claim proofs. -/

/-- Suspended link: the handler takes the wake path. -/
theorem buttonHandler_suspend (ch : Fin 4) (ret : Int) (s : FwState)
    (h : s.usbStatus = .suspend) :
    buttonHandler ch ret s = wakePath s := by
  unfold buttonHandler
  exact if_pos ⟨rfl, h⟩

/-- Link not suspended: the handler runs the edge body. -/
theorem buttonHandler_active (ch : Fin 4) (ret : Int) (s : FwState)
    (h : s.usbStatus ≠ .suspend) :
    buttonHandler ch ret s = edgeBody ch ret s := by
  unfold buttonHandler
  exact if_neg (fun hc => h hc.2)

/-- A failed read leaves the state untouched. -/
theorem edgeBody_skip (ch : Fin 4) (ret : Int) (s : FwState) (hr : ret < 0) :
    edgeBody ch ret s = s := by
  unfold edgeBody
  exact if_pos hr

/-- A successful read whose classification differs from the shared byte
writes it and gives the semaphore. -/
theorem edgeBody_write (ch : Fin 4) (ret : Int) (s : FwState) (hr : 0 ≤ ret)
    (hw : s.status7 ≠ classify (s.defVal ch) ret (channelScancode ch)) :
    edgeBody ch ret s =
      { s with status7 := classify (s.defVal ch) ret (channelScancode ch),
               sem := kSemGive s.sem,
               writeCount := Function.update s.writeCount ch (s.writeCount ch + 1) } := by
  unfold edgeBody
  rw [if_neg (not_lt.mpr hr), if_pos hw]

/-- A successful read whose classification equals the shared byte does
nothing. -/
theorem edgeBody_nowrite (ch : Fin 4) (ret : Int) (s : FwState) (hr : 0 ≤ ret)
    (hw : s.status7 = classify (s.defVal ch) ret (channelScancode ch)) :
    edgeBody ch ret s = s := by
  unfold edgeBody
  rw [if_neg (not_lt.mpr hr), if_neg (not_not_intro hw)]

/-- The edge body leaves the usb status, the baselines and the wake counter
alone. -/
theorem edgeBody_frame (ch : Fin 4) (ret : Int) (s : FwState) :
    (edgeBody ch ret s).usbStatus = s.usbStatus ∧
    (edgeBody ch ret s).defVal = s.defVal ∧
    (edgeBody ch ret s).wakeRequests = s.wakeRequests := by
  unfold edgeBody
  split
  · exact ⟨rfl, rfl, rfl⟩
  · split
    · exact ⟨rfl, rfl, rfl⟩
    · exact ⟨rfl, rfl, rfl⟩

/-- A handler never changes the usb status. -/
theorem buttonHandler_usbStatus (ch : Fin 4) (ret : Int) (s : FwState) :
    (buttonHandler ch ret s).usbStatus = s.usbStatus := by
  by_cases h : s.usbStatus = .suspend
  · rw [buttonHandler_suspend ch ret s h]; rfl
  · rw [buttonHandler_active ch ret s h]; exact (edgeBody_frame ch ret s).1

/-- A handler never changes the baselines. -/
theorem buttonHandler_defVal (ch : Fin 4) (ret : Int) (s : FwState) :
    (buttonHandler ch ret s).defVal = s.defVal := by
  by_cases h : s.usbStatus = .suspend
  · rw [buttonHandler_suspend ch ret s h]; rfl
  · rw [buttonHandler_active ch ret s h]; exact (edgeBody_frame ch ret s).2.1

/-- A handler keeps the semaphore count at most 1. -/
theorem buttonHandler_sem_le (ch : Fin 4) (ret : Int) (s : FwState)
    (h : s.sem ≤ 1) : (buttonHandler ch ret s).sem ≤ 1 := by
  by_cases hs : s.usbStatus = .suspend
  · rw [buttonHandler_suspend ch ret s hs]; exact h
  · rw [buttonHandler_active ch ret s hs]
    unfold edgeBody
    split
    · exact h
    · split
      · exact min_le_right _ _
      · exact h

/-- After a successful read with the link up, the shared scancode byte holds
exactly the classification of this edge, whether or not a write happened. -/
theorem buttonHandler_status7 (ch : Fin 4) (ret : Int) (s : FwState)
    (hA : s.usbStatus ≠ .suspend) (hr : 0 ≤ ret) :
    (buttonHandler ch ret s).status7 =
      classify (s.defVal ch) ret (channelScancode ch) := by
  rw [buttonHandler_active ch ret s hA]
  by_cases hw : s.status7 = classify (s.defVal ch) ret (channelScancode ch)
  · rw [edgeBody_nowrite ch ret s hr hw]; exact hw
  · rw [edgeBody_write ch ret s hr hw]

/-- Classification of a GPIO level below 256 (gpio_pin_get only returns 0 or
1 on success): the uint8_t cast is the identity there. -/
theorem classify_of_lt (baseline raw code : Nat) (hr : raw < 256) :
    classify baseline (↑raw) code =
      if baseline ≠ raw then code else HID_KBD_MODIFIER_NONE := by
  unfold classify
  rw [show ((↑raw : Int).toNat % 256) = raw from by
    rw [Int.toNat_natCast, Nat.mod_eq_of_lt hr]]

/-- Every channel scancode is a real key, distinct from the no-key
sentinel. -/
theorem channelScancode_ne_none (ch : Fin 4) :
    channelScancode ch ≠ HID_KBD_MODIFIER_NONE := by
  fin_cases ch <;> decide

/-- Folding edges never changes the usb status. -/
theorem edgeFold_usbStatus (edges : List (Fin 4 × Int)) (s : FwState) :
    (edgeFold edges s).usbStatus = s.usbStatus := by
  induction edges generalizing s with
  | nil => rfl
  | cons e es ih =>
    calc (edgeFold (e :: es) s).usbStatus
        = (edgeFold es (buttonHandler e.1 e.2 s)).usbStatus := rfl
      _ = (buttonHandler e.1 e.2 s).usbStatus := ih _
      _ = s.usbStatus := buttonHandler_usbStatus _ _ _

/-- Folding edges never changes the baselines. -/
theorem edgeFold_defVal (edges : List (Fin 4 × Int)) (s : FwState) :
    (edgeFold edges s).defVal = s.defVal := by
  induction edges generalizing s with
  | nil => rfl
  | cons e es ih =>
    calc (edgeFold (e :: es) s).defVal
        = (edgeFold es (buttonHandler e.1 e.2 s)).defVal := rfl
      _ = (buttonHandler e.1 e.2 s).defVal := ih _
      _ = s.defVal := buttonHandler_defVal _ _ _

/-- C1: for every button channel, when the handler runs with the link not
suspended and the GPIO read succeeds returning raw, the computed scancode
(left in the shared scancode byte) is the fixed scancode of the channel when
raw differs from the captured baseline, and the no-key sentinel when raw
equals the baseline. -/
theorem c1_scancode_classification (ch : Fin 4) (s : FwState) (raw : Nat)
    (hA : s.usbStatus ≠ .suspend) (hr : raw < 256) :
    (raw ≠ s.defVal ch →
       (buttonHandler ch (↑raw) s).status7 = channelScancode ch) ∧
    (raw = s.defVal ch →
       (buttonHandler ch (↑raw) s).status7 = HID_KBD_MODIFIER_NONE) := by
  have h7 := buttonHandler_status7 ch (↑raw) s hA (Int.natCast_nonneg raw)
  rw [classify_of_lt _ _ _ hr] at h7
  constructor
  · intro hne
    rw [h7, if_pos (Ne.symm hne)]
  · intro he
    rw [h7, if_neg (not_not_intro he.symm)]

/-- Witness for C1: channel 0 with baseline 1; a read of level 0 computes
the R key, a read of level 1 computes the no-key sentinel. -/
theorem c1_scancode_classification_witness :
    exActive.usbStatus ≠ UsbDcStatusCode.suspend ∧
    (buttonHandler 0 (↑(0 : Nat)) exActive).status7 = channelScancode 0 ∧
    (buttonHandler 0 (↑(1 : Nat)) exActive).status7 = HID_KBD_MODIFIER_NONE :=
  ⟨by decide,
   (c1_scancode_classification 0 exActive 0 (by decide) (by decide)).1 (by decide),
   (c1_scancode_classification 0 exActive 1 (by decide) (by decide)).2 (by decide)⟩

/-- C2 counterexample: an iteration of the dispatch loop whose submission
fails (hid_int_ep_write returns -1, which is nonzero and thus logged as an
error) and whose toggle call succeeds still toggles the status LED, refuting
the claim that no LED toggle occurs on a submission failure. -/
theorem c2_counterexample :
    ((-1 : Int) ≠ 0) ∧
    (loopIter HID_KEY_R (-1) 0 dispInit).ledToggles = dispInit.ledToggles + 1 :=
  ⟨by decide, rfl⟩

/-- C2 amended: in every iteration of the dispatch loop the LED toggle is
attempted exactly once, irrespective of the submission result, and the LED
changes state exactly when the toggle call itself succeeds; the submission
result has no influence on the toggle. -/
theorem c2_toggle_unconditional (scan : Nat) (writeRet toggleRet : Int)
    (s : DispState) :
    (loopIter scan writeRet toggleRet s).toggleAttempts = s.toggleAttempts + 1 ∧
    (loopIter scan writeRet toggleRet s).ledToggles =
      (if toggleRet < 0 then s.ledToggles else s.ledToggles + 1) :=
  ⟨rfl, rfl⟩

/-- C3 counterexample: channel 1 takes its very first edge, so its own
previously recorded scancode can only be the initial no-key value (it has
performed no write at all, as its ghost write counter shows); the scancode it
computes is the no-key value as well, yet the handler writes the shared byte
and raises the semaphore, because the comparison is made against the shared
scancode byte (holding channel 0 earlier press) and not against any
per-channel record. -/
theorem c3_counterexample :
    cexS2.writeCount 1 = 0 ∧
    classify (cexS2.defVal 1) 1 (channelScancode 1) = HID_KBD_MODIFIER_NONE ∧
    cexS3.sem = 1 ∧
    cexS3.writeCount 1 = cexS2.writeCount 1 + 1 ∧
    cexS3.status7 ≠ cexS2.status7 := by
  refine ⟨rfl, rfl, rfl, rfl, ?_⟩
  decide

/-- C3 amended: the handlers keep no per-channel record; each handler
compares the computed scancode against the shared scancode byte itself,
writes it and raises the semaphore exactly when the two differ, the write
itself being the update of the record. -/
theorem c3_shared_record (ch : Fin 4) (ret : Int) (s : FwState)
    (hA : s.usbStatus ≠ .suspend) (hr : 0 ≤ ret) :
    (s.status7 ≠ classify (s.defVal ch) ret (channelScancode ch) →
       buttonHandler ch ret s =
         { s with status7 := classify (s.defVal ch) ret (channelScancode ch),
                  sem := kSemGive s.sem,
                  writeCount :=
                    Function.update s.writeCount ch (s.writeCount ch + 1) }) ∧
    (s.status7 = classify (s.defVal ch) ret (channelScancode ch) →
       buttonHandler ch ret s = s) := by
  rw [buttonHandler_active ch ret s hA]
  exact ⟨fun hw => edgeBody_write ch ret s hr hw,
         fun hw => edgeBody_nowrite ch ret s hr hw⟩

/-- Witness for the amended C3: at rest with baseline 1, a level-0 edge on
channel 0 computes the R key, which differs from the shared byte, so the
handler writes it, gives the semaphore and bumps the ghost write counter. -/
theorem c3_shared_record_witness :
    exActive.status7 ≠ classify (exActive.defVal 0) 0 (channelScancode 0) ∧
    buttonHandler 0 0 exActive =
      { exActive with
          status7 := classify (exActive.defVal 0) 0 (channelScancode 0),
          sem := kSemGive exActive.sem,
          writeCount :=
            Function.update exActive.writeCount 0 (exActive.writeCount 0 + 1) } :=
  ⟨by decide, (c3_shared_record 0 0 exActive (by decide) (by decide)).1 (by decide)⟩

/-- C4: on every edge, a suspended link makes the handler leave the shared
scancode byte, the write counters and the semaphore untouched and issue one
wake request; a link that is not suspended makes it run the normal
classification body and issue no wake request. -/
theorem c4_suspend_guard (ch : Fin 4) (ret : Int) (s : FwState) :
    (s.usbStatus = .suspend →
       (buttonHandler ch ret s).status7 = s.status7 ∧
       (buttonHandler ch ret s).writeCount = s.writeCount ∧
       (buttonHandler ch ret s).sem = s.sem ∧
       (buttonHandler ch ret s).wakeRequests = s.wakeRequests + 1) ∧
    (s.usbStatus ≠ .suspend →
       buttonHandler ch ret s = edgeBody ch ret s ∧
       (buttonHandler ch ret s).wakeRequests = s.wakeRequests) := by
  constructor
  · intro h
    rw [buttonHandler_suspend ch ret s h]
    exact ⟨rfl, rfl, rfl, rfl⟩
  · intro h
    refine ⟨buttonHandler_active ch ret s h, ?_⟩
    rw [buttonHandler_active ch ret s h]
    exact (edgeBody_frame ch ret s).2.2

/-- Witness for C4: a suspended-state edge wakes and mutates nothing, an
active-state edge wakes nothing. -/
theorem c4_suspend_guard_witness :
    exSuspended.usbStatus = UsbDcStatusCode.suspend ∧
    (buttonHandler 0 0 exSuspended).status7 = exSuspended.status7 ∧
    (buttonHandler 0 0 exSuspended).wakeRequests = exSuspended.wakeRequests + 1 ∧
    exActive.usbStatus ≠ UsbDcStatusCode.suspend ∧
    (buttonHandler 0 0 exActive).wakeRequests = exActive.wakeRequests :=
  ⟨by decide,
   ((c4_suspend_guard 0 0 exSuspended).1 (by decide)).1,
   ((c4_suspend_guard 0 0 exSuspended).1 (by decide)).2.2.2,
   by decide,
   ((c4_suspend_guard 0 0 exActive).2 (by decide)).2⟩

/-- C5: from any state whose semaphore count is at most 1, any sequence of
system events (edges giving the semaphore, drains taking it, link status
updates) leaves the count at most 1: gives saturate at the limit declared in
K_SEM_DEFINE(sem, 0, 1), so raises before a drain coalesce into one pending
wake. -/
theorem c5_sem_at_most_one (events : List SysEvent) (s : FwState)
    (h : s.sem ≤ 1) : (events.foldl sysStep s).sem ≤ 1 := by
  induction events generalizing s with
  | nil => exact h
  | cons e es ih =>
    refine ih (sysStep s e) ?_
    cases e with
    | edge ch ret => exact buttonHandler_sem_le ch ret s h
    | drain => exact le_trans (Nat.sub_le s.sem 1) h
    | linkStatus u => exact h

/-- Witness for C5: two state-changing edges in a row before any drain still
leave the count at 1. -/
theorem c5_sem_at_most_one_witness :
    exActive.sem ≤ 1 ∧
    ([SysEvent.edge 0 0, SysEvent.edge 1 1, SysEvent.drain].foldl
       sysStep exActive).sem ≤ 1 :=
  ⟨by decide,
   c5_sem_at_most_one [SysEvent.edge 0 0, SysEvent.edge 1 1, SysEvent.drain]
     exActive (by decide)⟩

/-- C6: with the link not suspended, a failed GPIO read (negative return)
makes the handler return with the state completely unchanged: no shared-byte
write, no semaphore give, no wake request, no retry. -/
theorem c6_read_failure_no_effect (ch : Fin 4) (ret : Int) (s : FwState)
    (hA : s.usbStatus ≠ .suspend) (hr : ret < 0) :
    buttonHandler ch ret s = s := by
  rw [buttonHandler_active ch ret s hA]
  exact edgeBody_skip ch ret s hr

/-- Witness for C6: a read failing with -3 on channel 0 leaves the example
state untouched. -/
theorem c6_read_failure_no_effect_witness :
    exActive.usbStatus ≠ UsbDcStatusCode.suspend ∧ ((-3 : Int) < 0) ∧
    buttonHandler 0 (-3) exActive = exActive :=
  ⟨by decide, by decide,
   c6_read_failure_no_effect 0 (-3) exActive (by decide) (by decide)⟩

/-- From a loop state whose report buffer is zero away from byte 7, the
submitted reports are exactly the zero report with byte 7 set to the scancode
of each iteration. -/
theorem runLoop_submitted_aux (inputs : List (Nat × Int × Int)) (s : DispState)
    (h : ∀ i : Fin 8, i ≠ 7 → s.report i = 0) :
    (runLoop inputs s).submitted =
      s.submitted ++
        inputs.map (fun p => Function.update (fun _ => 0) (7 : Fin 8) p.1) := by
  induction inputs generalizing s with
  | nil => simp [runLoop]
  | cons p ps ih =>
    have hrep : Function.update s.report (7 : Fin 8) p.1 =
        Function.update (fun _ => 0) (7 : Fin 8) p.1 := by
      funext i
      by_cases hi : i = (7 : Fin 8)
      · subst hi
        rw [Function.update_same, Function.update_same]
      · rw [Function.update_noteq hi, Function.update_noteq hi, h i hi]
    have hinv : ∀ i : Fin 8, i ≠ 7 →
        (loopIter p.1 p.2.1 p.2.2 s).report i = 0 := by
      intro i hi
      show Function.update s.report (7 : Fin 8) p.1 i = 0
      rw [Function.update_noteq hi]
      exact h i hi
    calc (runLoop (p :: ps) s).submitted
        = (runLoop ps (loopIter p.1 p.2.1 p.2.2 s)).submitted := rfl
      _ = (loopIter p.1 p.2.1 p.2.2 s).submitted ++
            ps.map (fun q => Function.update (fun _ => 0) (7 : Fin 8) q.1) :=
          ih _ hinv
      _ = (s.submitted ++ [Function.update s.report (7 : Fin 8) p.1]) ++
            ps.map (fun q => Function.update (fun _ => 0) (7 : Fin 8) q.1) := rfl
      _ = s.submitted ++
            (p :: ps).map (fun q => Function.update (fun _ => 0) (7 : Fin 8) q.1) := by
          rw [hrep, List.append_assoc]
          rfl

/-- C7: every report the dispatch loop submits, starting from the zeroed
report buffer of main, is the zero report except byte offset 7, which holds
exactly the scancode read from the shared buffer in that iteration; in
particular the modifier byte at offset 0 and the LED byte at offset 2 are
zero in every submitted report. -/
theorem c7_submitted_report_shape (inputs : List (Nat × Int × Int)) :
    (runLoop inputs dispInit).submitted =
      inputs.map (fun p => Function.update (fun _ => 0) (7 : Fin 8) p.1) ∧
    ∀ r ∈ (runLoop inputs dispInit).submitted,
      r 0 = 0 ∧ r 2 = 0 ∧ ∀ i : Fin 8, i ≠ 7 → r i = 0 := by
  have hmain := runLoop_submitted_aux inputs dispInit (fun i hi => rfl)
  have hsub : (runLoop inputs dispInit).submitted =
      inputs.map (fun p => Function.update (fun _ => 0) (7 : Fin 8) p.1) :=
    hmain.trans (List.nil_append _)
  refine ⟨hsub, ?_⟩
  intro r hr
  rw [hsub] at hr
  obtain ⟨p, hp, rfl⟩ := List.mem_map.mp hr
  refine ⟨?_, ?_, ?_⟩
  · rw [Function.update_noteq (by decide)]
  · rw [Function.update_noteq (by decide)]
  · intro i hi
    rw [Function.update_noteq hi]

/-- Witness for C7: a single iteration reading the R key submits the report
that is zero except byte 7 = R, and its modifier and LED bytes are zero. -/
theorem c7_submitted_report_shape_witness :
    Function.update (fun _ => 0) (7 : Fin 8) HID_KEY_R
        ∈ (runLoop [(HID_KEY_R, 0, 0)] dispInit).submitted ∧
    Function.update (fun _ => 0) (7 : Fin 8) HID_KEY_R (0 : Fin 8) = 0 ∧
    Function.update (fun _ => 0) (7 : Fin 8) HID_KEY_R (2 : Fin 8) = 0 := by
  have h := c7_submitted_report_shape [(HID_KEY_R, 0, 0)]
  have hmem : Function.update (fun _ => 0) (7 : Fin 8) HID_KEY_R
      ∈ (runLoop [(HID_KEY_R, 0, 0)] dispInit).submitted := by
    rw [h.1]
    exact List.mem_singleton.mpr rfl
  exact ⟨hmem, (h.2 _ hmem).1, (h.2 _ hmem).2.1⟩

/-- C8: after any run of edges ending in an edge e whose read succeeds, with
the link not suspended, the shared scancode byte a drain reads is exactly the
classification of e: all intermediate classifications are overwritten and
never observed. Since an edge that changes nothing computes precisely the
value already in the byte, this value is also the classification of the most
recent state-changing edge. -/
theorem c8_drain_sees_last_edge (s : FwState) (edges : List (Fin 4 × Int))
    (e : Fin 4 × Int) (hA : s.usbStatus ≠ .suspend) (he : 0 ≤ e.2) :
    (edgeFold (edges ++ [e]) s).status7 =
      classify (s.defVal e.1) e.2 (channelScancode e.1) := by
  have hU : (edgeFold edges s).usbStatus = s.usbStatus := edgeFold_usbStatus edges s
  have hD : (edgeFold edges s).defVal = s.defVal := edgeFold_defVal edges s
  have hsplit : edgeFold (edges ++ [e]) s =
      buttonHandler e.1 e.2 (edgeFold edges s) := by
    unfold edgeFold
    rw [List.foldl_append]
    rfl
  rw [hsplit, buttonHandler_status7 e.1 e.2 _ (by rw [hU]; exact hA) he, hD]

/-- Witness for C8: a press on channel 0 followed by a resting edge on
channel 1 leaves exactly the classification of the channel-1 edge, namely
the no-key value. -/
theorem c8_drain_sees_last_edge_witness :
    exActive.usbStatus ≠ UsbDcStatusCode.suspend ∧
    (edgeFold ([((0 : Fin 4), (0 : Int))] ++ [((1 : Fin 4), (1 : Int))])
        exActive).status7 =
      classify (exActive.defVal 1) 1 (channelScancode 1) :=
  ⟨by decide,
   c8_drain_sees_last_edge exActive [((0 : Fin 4), (0 : Int))]
     ((1 : Fin 4), (1 : Int)) (by decide) (by decide)⟩

/-- C9: a press edge (level differing from the baseline) followed by a
release edge (level back at the baseline) on one channel, starting with the
shared byte at no-key, with the link up and both reads successful, drives
the shared scancode byte from no-key to the fixed code of the channel and
back to no-key, in that order, with exactly two writes in total (two on this
channel, none on any other). -/
theorem c9_press_release_round_trip (ch : Fin 4) (s : FwState) (rawP : Nat)
    (h0 : s.status7 = HID_KBD_MODIFIER_NONE) (hA : s.usbStatus ≠ .suspend)
    (hb : s.defVal ch < 256) (hp : rawP < 256) (hne : rawP ≠ s.defVal ch) :
    (buttonHandler ch (↑rawP) s).status7 = channelScancode ch ∧
    (buttonHandler ch (↑(s.defVal ch)) (buttonHandler ch (↑rawP) s)).status7
      = HID_KBD_MODIFIER_NONE ∧
    (buttonHandler ch (↑(s.defVal ch)) (buttonHandler ch (↑rawP) s)).writeCount ch
      = s.writeCount ch + 2 ∧
    ∀ j : Fin 4, j ≠ ch →
      (buttonHandler ch (↑(s.defVal ch)) (buttonHandler ch (↑rawP) s)).writeCount j
        = s.writeCount j := by
  have hc1 : classify (s.defVal ch) (↑rawP) (channelScancode ch)
      = channelScancode ch := by
    rw [classify_of_lt _ _ _ hp, if_pos (Ne.symm hne)]
  have hw1 : s.status7 ≠ classify (s.defVal ch) (↑rawP) (channelScancode ch) := by
    rw [h0, hc1]
    exact (channelScancode_ne_none ch).symm
  have hs1 : buttonHandler ch (↑rawP) s =
      { s with status7 := classify (s.defVal ch) (↑rawP) (channelScancode ch),
               sem := kSemGive s.sem,
               writeCount := Function.update s.writeCount ch (s.writeCount ch + 1) } := by
    rw [buttonHandler_active ch _ s hA]
    exact edgeBody_write ch _ s (Int.natCast_nonneg rawP) hw1
  have hT7 : (buttonHandler ch (↑rawP) s).status7 = channelScancode ch := by
    rw [hs1]
    exact hc1
  have hTd : (buttonHandler ch (↑rawP) s).defVal = s.defVal :=
    buttonHandler_defVal ch _ s
  have hTu : (buttonHandler ch (↑rawP) s).usbStatus = s.usbStatus :=
    buttonHandler_usbStatus ch _ s
  have hTw : (buttonHandler ch (↑rawP) s).writeCount =
      Function.update s.writeCount ch (s.writeCount ch + 1) := by
    rw [hs1]
  have hc2 : classify (s.defVal ch) (↑(s.defVal ch)) (channelScancode ch)
      = HID_KBD_MODIFIER_NONE := by
    rw [classify_of_lt _ _ _ hb, if_neg (not_not_intro rfl)]
  have hw2 : (buttonHandler ch (↑rawP) s).status7 ≠
      classify ((buttonHandler ch (↑rawP) s).defVal ch) (↑(s.defVal ch))
        (channelScancode ch) := by
    rw [hT7, hTd, hc2]
    exact channelScancode_ne_none ch
  have hs2 : buttonHandler ch (↑(s.defVal ch)) (buttonHandler ch (↑rawP) s) =
      { buttonHandler ch (↑rawP) s with
          status7 := classify ((buttonHandler ch (↑rawP) s).defVal ch)
            (↑(s.defVal ch)) (channelScancode ch),
          sem := kSemGive (buttonHandler ch (↑rawP) s).sem,
          writeCount := Function.update (buttonHandler ch (↑rawP) s).writeCount ch
            ((buttonHandler ch (↑rawP) s).writeCount ch + 1) } := by
    rw [buttonHandler_active ch _ _ (by rw [hTu]; exact hA)]
    exact edgeBody_write ch _ _ (Int.natCast_nonneg _) hw2
  refine ⟨hT7, ?_, ?_, ?_⟩
  · rw [hs2]
    show classify ((buttonHandler ch (↑rawP) s).defVal ch) (↑(s.defVal ch))
      (channelScancode ch) = HID_KBD_MODIFIER_NONE
    rw [hTd]
    exact hc2
  · rw [hs2]
    show Function.update (buttonHandler ch (↑rawP) s).writeCount ch
      ((buttonHandler ch (↑rawP) s).writeCount ch + 1) ch = s.writeCount ch + 2
    rw [Function.update_same, hTw, Function.update_same]
  · intro j hj
    rw [hs2]
    show Function.update (buttonHandler ch (↑rawP) s).writeCount ch
      ((buttonHandler ch (↑rawP) s).writeCount ch + 1) j = s.writeCount j
    rw [Function.update_noteq hj, hTw, Function.update_noteq hj]

/-- Witness for C9: channel 0, baseline 1, press at level 0 then release at
level 1 takes the shared byte from 0 to the R key and back, with exactly two
writes on channel 0. -/
theorem c9_press_release_round_trip_witness :
    exActive.status7 = HID_KBD_MODIFIER_NONE ∧
    (buttonHandler 0 (↑(0 : Nat)) exActive).status7 = channelScancode 0 ∧
    (buttonHandler 0 (↑(exActive.defVal 0))
        (buttonHandler 0 (↑(0 : Nat)) exActive)).status7 = HID_KBD_MODIFIER_NONE ∧
    (buttonHandler 0 (↑(exActive.defVal 0))
        (buttonHandler 0 (↑(0 : Nat)) exActive)).writeCount 0
      = exActive.writeCount 0 + 2 := by
  have h := c9_press_release_round_trip 0 exActive 0 rfl (by decide) (by decide)
    (by decide) (by decide)
  exact ⟨rfl, h.1, h.2.1, h.2.2.1⟩

/-- C10: a channel whose gpio_dt_spec carries a NULL port (absent devicetree
node) makes callbacks_configure return 0 with nothing configured at all, so
no callback is registered (the channel can never produce an edge event) and
the abort guard in main does not fire for it: startup proceeds. -/
theorem c10_null_port_is_success (env : GpioEnv) :
    callbacks_configure false env = (0, noCfgEffects) ∧
    (callbacks_configure false env).2.callbackAdded = false ∧
    mainAbortsOnChannel false env = false :=
  ⟨rfl, rfl, rfl⟩

end Keypad
